import Mathlib

/-
Shallow embedding of the Data Import & Image Auto-Mapping subsystem of the
Vsbvibe repository (modules/data_importer.py together with the helpers it uses
from modules/utils.py and core/errors.py), and proofs about the claims on it.

Conventions of the embedding:
* Python dictionaries produced by the validator are modelled as structures;
  a key that is absent from a dictionary in some code path is modelled by an
  `Option` field whose value is `none` in that path.
* The image directory is modelled as an `ImageDir`: a flag saying whether the
  directory exists, plus the list of file names it contains (in directory
  order, as `os.listdir` would enumerate them).
* Machine floats appear only in price parsing (Python `float(...)`); prices in
  the claims are plain decimal literals, so the parse is modelled exactly over
  `Rat` for decimal-literal inputs.
* Row statuses are the emoji strings used verbatim in the source.
* The Python string operations used by the source (`lower`, `strip`,
  `startswith`, `endswith`, `in`, `split`, `replace`) are embedded as
  structural functions on the character list of a `String`, so that every
  definition evaluates by kernel reduction.
-/

namespace Vsbvibe

/-! ### String primitives (structural embeddings of the Python operations) -/

/-- Python `s.startswith(p)`. -/
def strStartsWith (s p : String) : Bool := p.toList.isPrefixOf s.toList

/-- Python `s.endswith(p)`. -/
def strEndsWith (s p : String) : Bool := p.toList.reverse.isPrefixOf s.toList.reverse

/-- Python `str.lower` on one character (the source only ever lowercases ASCII
slugs and file names). -/
def asciiLower (c : Char) : Char :=
  if 'A' ≤ c && c ≤ 'Z' then Char.ofNat (c.toNat + 32) else c

/-- Python `s.lower()`. -/
def strLower (s : String) : String := ⟨s.toList.map asciiLower⟩

/-- Characters removed by Python `str.strip()`. -/
def isPySpace (c : Char) : Bool :=
  c = ' ' || c = '\t' || c = '\n' || c = '\r' || c = '\x0b' || c = '\x0c'

/-- Python `s.strip()`. -/
def strTrim (s : String) : String :=
  ⟨((s.toList.dropWhile isPySpace).reverse.dropWhile isPySpace).reverse⟩

/-- Python substring test `sub in s`. -/
def strContainsSub (s sub : String) : Bool :=
  s.toList.tails.any (fun t => sub.toList.isPrefixOf t)

/-- Python `s.split(sep)` for a one-character separator. -/
def splitOnCharAux (sep : Char) : List Char → List Char → List String
  | [], acc => [⟨acc.reverse⟩]
  | c :: rest, acc =>
    if c = sep then ⟨acc.reverse⟩ :: splitOnCharAux sep rest []
    else splitOnCharAux sep rest (c :: acc)

/-- Python `s.split(sep)` for a one-character separator. -/
def splitOnChar (sep : Char) (s : String) : List String :=
  splitOnCharAux sep s.toList []

/-- Python `", ".join(l)`-style joining (`str.join`). -/
def joinWith (sep : String) : List String → String
  | [] => ""
  | [x] => x
  | x :: y :: xs => x ++ sep ++ joinWith sep (y :: xs)

/-- Decimal rendering of the single digits used in the extra-image file name
patterns (`f"{slug}{separator}{i}{ext}"` for `i` in 1..9). -/
def digitStr (i : Nat) : String := ⟨[Nat.digitChar i]⟩

/-! ### Image Resolver -/

/-- Row status constants, exactly the strings used by the source
(`data_importer.py`): valid. -/
def statusValid : String := "✅"

/-- Status for rows whose image is an external URL. -/
def statusExternalUrl : String := "🔵"

/-- Status for fuzzy-match / missing-image warnings. -/
def statusWarn : String := "🟠"

/-- Status for multiple main-image candidates. -/
def statusMultiple : String := "🟣"

/-- Status for invalid rows. -/
def statusInvalid : String := "🔴"

/-- The image directory `content/images`: whether it exists on disk, and the
files it contains (in `os.listdir` order). -/
structure ImageDir where
  present : Bool
  files : List String
deriving DecidableEq, Repr

/-- Existence of a file inside the image directory
(`os.path.exists(os.path.join(self.images_path, f))`). -/
def ImageDir.fileExists (d : ImageDir) (f : String) : Bool :=
  d.present && d.files.any (fun g => g = f)

/-- The `image_extensions` list of `_map_images_for_slug`, `_find_extra_images`
and `_fuzzy_match_images`. -/
def image_extensions : List String := [".jpg", ".jpeg", ".png", ".webp", ".gif"]

/-- Embedding of `DataImporter._find_extra_images`: for i in 1..9, for
separator in `_`, `-`, for each extension, collect `slug{sep}{i}{ext}` when it
exists. Returns `[]` when the image directory is absent. -/
def find_extra_images (d : ImageDir) (slug : String) : List String :=
  if !d.present then []
  else
    (List.range' 1 9).flatMap (fun i =>
      ["_", "-"].flatMap (fun sep =>
        image_extensions.filterMap (fun ext =>
          let f := slug ++ sep ++ digitStr i ++ ext
          if d.fileExists f then some f else none)))

/-- Embedding of `DataImporter._fuzzy_match_images`: files whose lowercase name
starts with the lowercase slug and ends with a supported image extension, in
directory order. -/
def fuzzy_match_images (d : ImageDir) (slug : String) : List String :=
  if !d.present then []
  else
    d.files.filter (fun f =>
      strStartsWith (strLower f) (strLower slug) &&
      image_extensions.any (fun ext => strEndsWith (strLower f) ext))

/-- Result dictionary of `DataImporter._map_images_for_slug`. -/
structure ImageResult where
  main_image : Option String
  extra_images : List String
  main_candidates : List String
  confidence : String
deriving DecidableEq, Repr

/-- The main-image selection at the end of `_map_images_for_slug`: prefer a
candidate containing `_main` (confidence `exact`), else take the first
candidate (`exact` when it is the only one, `fuzzy` otherwise); no candidate
at all gives confidence `none`. -/
def selectMain (cands extras : List String) : ImageResult :=
  match cands with
  | [] =>
    { main_image := none, extra_images := extras, main_candidates := [],
      confidence := "none" }
  | c :: cs =>
    match (c :: cs).filter (fun img => strContainsSub img "_main") with
    | v :: _ =>
      { main_image := some v, extra_images := extras,
        main_candidates := c :: cs, confidence := "exact" }
    | [] =>
      { main_image := some c, extra_images := extras,
        main_candidates := c :: cs,
        confidence := if cs.isEmpty then "exact" else "fuzzy" }

/-- Embedding of `DataImporter._map_images_for_slug`. The branches follow the
source: external URL (prefix `http`) is returned verbatim with no filesystem
lookup; a specified local file that exists wins with confidence `manual`;
otherwise candidates `slug{ext}` and `slug_main{ext}` are collected per
extension, with a fuzzy fallback when none match, and `selectMain` picks the
main image. -/
def map_images_for_slug (d : ImageDir) (slug : String) (specified_image : String) :
    ImageResult :=
  if specified_image ≠ "" && strStartsWith specified_image "http" then
    { main_image := some specified_image, extra_images := [],
      main_candidates := [specified_image], confidence := "external" }
  else if specified_image ≠ "" && d.fileExists specified_image then
    { main_image := some specified_image,
      extra_images := find_extra_images d slug,
      main_candidates := [specified_image], confidence := "manual" }
  else if !d.present then
    { main_image := none, extra_images := [], main_candidates := [],
      confidence := "none" }
  else
    let cands := image_extensions.flatMap (fun ext =>
      (if d.fileExists (slug ++ ext) then [slug ++ ext] else []) ++
      (if d.fileExists (slug ++ "_main" ++ ext) then [slug ++ "_main" ++ ext] else []))
    let cands := if cands.isEmpty then fuzzy_match_images d slug else cands
    selectMain cands (find_extra_images d slug)

example :
    map_images_for_slug ⟨true, ["desk-lamp_main.jpg", "desk-lamp_1.jpg", "desk-lamp_2.jpg"]⟩
      "desk-lamp" "" =
    { main_image := some "desk-lamp_main.jpg",
      extra_images := ["desk-lamp_1.jpg", "desk-lamp_2.jpg"],
      main_candidates := ["desk-lamp_main.jpg"], confidence := "exact" } := by
  decide

example :
    (map_images_for_slug ⟨true, ["lamp-big.jpg", "lamp-small.jpg"]⟩ "lamp" "").confidence
      = "fuzzy" := by
  decide

/-! ### Row Validator -/

/-- Embedding of `DataImporter._is_url_safe`: the slug matches the regular
expression for alphanumerics, hyphens, underscores and forward slashes, and
equals its own lowercase form. -/
def is_url_safe (slug : String) : Bool :=
  slug.toList.all (fun c => c.isAlpha || c.isDigit || c = '-' || c = '_' || c = '/')
    && strLower slug = slug

/-- Digit run interpreted as a natural number (helper for the price parse). -/
def digitsVal (l : List Char) : Nat :=
  l.foldl (fun n c => 10 * n + (c.toNat - 48)) 0

/-- Embedding of Python `float(s)` restricted to the plain decimal forms the
importer feeds it (optional sign, digits, optional fractional part); the
result is the exact rational value. Exponent, infinity and NaN spellings,
which never arise from the price column of the claims, are not modelled. -/
def parsePyFloat (s : String) : Option Rat :=
  let t := strTrim s
  let (sign, body) :=
    if strStartsWith t "-" then ((-1 : Int), (t.toList.drop 1))
    else if strStartsWith t "+" then ((1 : Int), (t.toList.drop 1))
    else ((1 : Int), t.toList)
  match splitOnCharAux '.' body [] with
  | [intPart] =>
    if intPart.toList ≠ [] && intPart.toList.all Char.isDigit then
      some (mkRat (sign * (digitsVal intPart.toList : Int)) 1)
    else none
  | [intPart, fracPart] =>
    if (intPart.toList ≠ [] || fracPart.toList ≠ []) &&
        intPart.toList.all Char.isDigit && fracPart.toList.all Char.isDigit then
      some (mkRat
        (sign * ((digitsVal intPart.toList : Int) * (10 ^ fracPart.toList.length : Nat)
          + (digitsVal fracPart.toList : Int)))
        ((10 : Nat) ^ fracPart.toList.length))
    else none
  | _ => none

/-- Embedding of the price normalisation
`str(price).replace("$", "").replace(",", "")` (both replacements delete a
single character everywhere). -/
def stripPriceSymbols (s : String) : String :=
  ⟨s.toList.filter (fun c => c ≠ '$' && c ≠ ',')⟩

/-- Optional spreadsheet columns of a products row that the importer reads from
the raw row data (`row.to_dict()`), each already rendered with `str(...)`. -/
structure ProductData where
  description : String
  sku : String
  category : String
  tags : String
  image_alt_text : String
deriving DecidableEq, Repr

/-- A products spreadsheet row as handed to `_validate_product_row`: the cell
values after Python's `str(...)` rendering. -/
structure ProductRowInput where
  title : String
  slug : String
  price : String
  image_main : String
  data : ProductData
deriving DecidableEq, Repr

/-- The row dictionary returned by `_validate_product_row`. Fields that the
early `invalid` returns leave out of the dictionary are `Option`-wrapped with
`none` meaning the key is absent; `image_main` is doubly wrapped because the
present key can itself hold Python `None`. -/
structure ProductRowResult where
  status : String
  message : String
  slug : String
  title : String
  row : Nat
  price : Option Rat
  image_main : Option (Option String)
  image_extras : Option (List String)
  image_candidates : Option (List String)
  data : Option ProductRowInput
deriving DecidableEq, Repr

/-- The early `invalid` return dictionaries of `_validate_product_row`. -/
def invalidProductRow (msg slug title : String) (idx : Nat) : ProductRowResult :=
  { status := statusInvalid, message := msg, slug := slug, title := title,
    row := idx + 2, price := none, image_main := none, image_extras := none,
    image_candidates := none, data := none }

/-- Embedding of `DataImporter._validate_product_row`: required-field and
price checks short-circuit to `invalid`; otherwise the Image Resolver output
is mapped to a status (external URL, exact, fuzzy, manual, missing image) and
a multiple-candidates check overrides the status last. -/
def validate_product_row (d : ImageDir) (r : ProductRowInput) (idx : Nat) :
    ProductRowResult :=
  let title := strTrim r.title
  let slug := strTrim r.slug
  if title = "" then invalidProductRow "Missing title" slug title idx
  else if slug = "" then invalidProductRow "Missing slug" slug title idx
  else if !is_url_safe slug then invalidProductRow "Slug not URL-safe" slug title idx
  else
    match parsePyFloat (stripPriceSymbols r.price) with
    | none => invalidProductRow "Price must be numeric" slug title idx
    | some price_num =>
      if price_num < 0 then invalidProductRow "Price cannot be negative" slug title idx
      else
        let image_main := strTrim r.image_main
        let ir := map_images_for_slug d slug image_main
        let sm : String × String :=
          match ir.main_image with
          | some m =>
            if strStartsWith m "http" then (statusExternalUrl, "External image URL")
            else if ir.confidence = "exact" then (statusValid, "All fields valid")
            else if ir.confidence = "fuzzy" then
              (statusWarn, "Fuzzy image match: " ++ m)
            else (statusValid, "Manual image specified")
          | none => (statusWarn, "No main image found")
        let sm :=
          if 1 < ir.main_candidates.length then
            (statusMultiple,
              "Multiple main images found: " ++ joinWith ", " ir.main_candidates)
          else sm
        { status := sm.1, message := sm.2, slug := slug, title := title,
          row := idx + 2, price := some price_num,
          image_main := some ir.main_image,
          image_extras := some ir.extra_images,
          image_candidates := some ir.main_candidates,
          data := some r }

/-- A pages spreadsheet row as handed to `_validate_page_row`. -/
structure PageRowInput where
  title : String
  slug : String
  hero_image : String
  hero_headline : String
  hero_subtitle : String
  body_markdown : String
deriving DecidableEq, Repr

/-- The row dictionary returned by `_validate_page_row`, with the same
absent-key conventions as `ProductRowResult`. -/
structure PageRowResult where
  status : String
  message : String
  slug : String
  title : String
  row : Nat
  hero_image : Option (Option String)
  data : Option PageRowInput
deriving DecidableEq, Repr

/-- The early `invalid` return dictionaries of `_validate_page_row`. -/
def invalidPageRow (msg slug title : String) (idx : Nat) : PageRowResult :=
  { status := statusInvalid, message := msg, slug := slug, title := title,
    row := idx + 2, hero_image := none, data := none }

/-- Embedding of `DataImporter._validate_page_row`: required-field checks
short-circuit to `invalid`; a resolved hero image with prefix `http` is an
external URL, any other resolved image is valid, and a page without a hero
image is also valid. -/
def validate_page_row (d : ImageDir) (r : PageRowInput) (idx : Nat) :
    PageRowResult :=
  let title := strTrim r.title
  let slug := strTrim r.slug
  if title = "" then invalidPageRow "Missing title" slug title idx
  else if slug = "" then invalidPageRow "Missing slug" slug title idx
  else if !is_url_safe slug then invalidPageRow "Slug not URL-safe" slug title idx
  else
    let hero := strTrim r.hero_image
    let ir := map_images_for_slug d slug hero
    match ir.main_image with
    | some m =>
      if strStartsWith m "http" then
        { status := statusExternalUrl, message := "External hero image",
          slug := slug, title := title, row := idx + 2,
          hero_image := some (some m), data := some r }
      else
        { status := statusValid, message := "All fields valid",
          slug := slug, title := title, row := idx + 2,
          hero_image := some (some m), data := some r }
    | none =>
      { status := statusValid, message := "Valid (no hero image)",
        slug := slug, title := title, row := idx + 2,
        hero_image := some none, data := some r }

example : parsePyFloat (stripPriceSymbols "$49.99") = some (4999 / 100 : Rat) := by
  have h : (4999 / 100 : Rat) = mkRat 4999 100 := by
    rw [Rat.mkRat_eq_div]; norm_num
  rw [h]; decide

example :
    (validate_product_row ⟨true, ["desk-lamp_main.jpg", "desk-lamp_1.jpg", "desk-lamp_2.jpg"]⟩
      ⟨"Lamp", "desk-lamp", "$49.99", "", ⟨"", "", "", "", ""⟩⟩ 0).status = statusValid := by
  decide

example :
    (validate_product_row ⟨false, []⟩ ⟨"Mug", "Mug-Blue", "9.99", "", ⟨"", "", "", "", ""⟩⟩ 0).status
      = statusInvalid := by
  decide

example :
    (validate_product_row ⟨true, ["lamp-big.jpg", "lamp-small.jpg"]⟩
      ⟨"Lamp", "lamp", "5", "", ⟨"", "", "", "", ""⟩⟩ 0).status = statusMultiple := by
  decide

example :
    (validate_page_row ⟨true, ["lamp-big.jpg", "lamp-small.jpg"]⟩
      ⟨"Lamp", "lamp", "", "", "", ""⟩ 0).status = statusValid := by
  decide

/-! ### Spreadsheet-level validation and the dry run -/

/-- The per-collection `counts` dictionary of the dry-run result. -/
structure Counts where
  valid : Nat
  warnings : Nat
  errors : Nat
deriving DecidableEq, Repr

/-- The per-collection block of the dry-run result
(`{"rows": ..., "issues": ..., "counts": ...}`). -/
structure CollectionResult (ρ : Type) where
  rows : List ρ
  issues : List String
  counts : Counts
deriving DecidableEq, Repr

/-- A spreadsheet as seen by `_validate_*_excel` after `pd.read_excel`:
either unreadable (the read raised), or readable but missing required
columns, or a table of rows. -/
inductive SheetData (ρ : Type) where
  | bad (err : String)
  | missingCols (cols : List String)
  | table (rows : List ρ)
deriving DecidableEq, Repr

/-- Embedding of `DataImporter._validate_products_excel`: unreadable files and
missing required columns short-circuit to a single issue with one error;
otherwise each row is validated and tallied (`✅` valid, `🟠`/`🔵`/`🟣`
warnings, everything else an error with a per-row issue line). -/
def validate_products_excel (d : ImageDir) :
    SheetData ProductRowInput → CollectionResult ProductRowResult
  | .bad e =>
    { rows := [], issues := ["Cannot read Excel file: " ++ e], counts := ⟨0, 0, 1⟩ }
  | .missingCols cols =>
    { rows := [], issues := ["Missing required columns: " ++ joinWith ", " cols],
      counts := ⟨0, 0, 1⟩ }
  | .table rs =>
    let results := rs.enum.map (fun p => validate_product_row d p.2 p.1)
    let tally := results.foldl
      (fun (acc : List String × Counts) rr =>
        if rr.status = statusValid then
          (acc.1, { acc.2 with valid := acc.2.valid + 1 })
        else if rr.status = statusWarn || rr.status = statusExternalUrl ||
            rr.status = statusMultiple then
          (acc.1, { acc.2 with warnings := acc.2.warnings + 1 })
        else
          (acc.1 ++ ["Row " ++ toString rr.row ++ ": " ++ rr.message],
            { acc.2 with errors := acc.2.errors + 1 }))
      ([], ⟨0, 0, 0⟩)
    { rows := results, issues := tally.1, counts := tally.2 }

/-- Embedding of `DataImporter._validate_pages_excel`; pages tally `🟠`/`🔵`
as warnings (pages never produce `🟣`). -/
def validate_pages_excel (d : ImageDir) :
    SheetData PageRowInput → CollectionResult PageRowResult
  | .bad e =>
    { rows := [], issues := ["Cannot read Excel file: " ++ e], counts := ⟨0, 0, 1⟩ }
  | .missingCols cols =>
    { rows := [], issues := ["Missing required columns: " ++ joinWith ", " cols],
      counts := ⟨0, 0, 1⟩ }
  | .table rs =>
    let results := rs.enum.map (fun p => validate_page_row d p.2 p.1)
    let tally := results.foldl
      (fun (acc : List String × Counts) rr =>
        if rr.status = statusValid then
          (acc.1, { acc.2 with valid := acc.2.valid + 1 })
        else if rr.status = statusWarn || rr.status = statusExternalUrl then
          (acc.1, { acc.2 with warnings := acc.2.warnings + 1 })
        else
          (acc.1 ++ ["Row " ++ toString rr.row ++ ": " ++ rr.message],
            { acc.2 with errors := acc.2.errors + 1 }))
      ([], ⟨0, 0, 0⟩)
    { rows := results, issues := tally.1, counts := tally.2 }

/-- Embedding of `DataImporter._find_duplicates`. The source collects
duplicates into a Python set and returns `list(...)` of it; only membership
and emptiness of the result are ever consumed, so the set's iteration order is
rendered here as first-occurrence order. -/
def find_duplicates (items : List String) : List String :=
  (items.filter (fun x => 2 ≤ items.count x)).dedup

/-- Simulation of assignment into a Python dict key (`m[k] = v`): replaces the
value in place when the key exists, appends otherwise (insertion order is
preserved, as in CPython). -/
def dictInsert {α : Type} (l : List (String × α)) (k : String) (v : α) :
    List (String × α) :=
  if l.any (fun p => p.1 = k) then l.map (fun p => if p.1 = k then (k, v) else p)
  else l ++ [(k, v)]

/-- Python dict read `m.get(k)`. -/
def dictLookup {α : Type} (l : List (String × α)) (k : String) : Option α :=
  (l.find? (fun p => p.1 = k)).map (fun p => p.2)

/-- One value of the image-mapping dictionary built by
`_generate_image_mapping`. -/
structure MappingEntry where
  main_image : Option String
  extra_images : List String
  alt_text : String
  confidence : String
  candidates : List String
deriving DecidableEq, Repr

/-- The mapping value for a product row. The row dictionaries carry no
`confidence` key, so `row.get("confidence", "unknown")` always yields
`"unknown"`. -/
def productMappingEntry (rr : ProductRowResult) : MappingEntry :=
  { main_image := rr.image_main.getD none,
    extra_images := rr.image_extras.getD [],
    alt_text := (rr.data.map (fun r => r.data.image_alt_text)).getD "",
    confidence := "unknown",
    candidates := rr.image_candidates.getD [] }

/-- The mapping value for a page row: page row dictionaries have none of the
`image_main` / `image_extras` / `image_candidates` keys and their data has no
`image_alt_text` column, so every lookup falls back to its default. -/
def pageMappingEntry (_ : PageRowResult) : MappingEntry :=
  { main_image := none, extra_images := [], alt_text := "",
    confidence := "unknown", candidates := [] }

/-- Embedding of `DataImporter._generate_image_mapping` over the concatenated
product and page rows; rows with an empty slug are skipped. -/
def generate_image_mapping (prows : List ProductRowResult)
    (grows : List PageRowResult) : List (String × MappingEntry) :=
  let m := prows.foldl
    (fun m rr => if rr.slug = "" then m else dictInsert m rr.slug (productMappingEntry rr)) []
  grows.foldl
    (fun m rr => if rr.slug = "" then m else dictInsert m rr.slug (pageMappingEntry rr)) m

/-- The `summary` dictionary of a completed dry run. -/
structure Summary where
  total_rows : Nat
  total_issues : Nat
  products_count : Nat
  pages_count : Nat
  ready_to_apply : Bool
deriving DecidableEq, Repr

/-- The full dry-run result. `summary = none` models the initial empty
`summary` dictionary `{}`, which the plan-not-found early return leaves in
place. -/
structure DryRunResults where
  products : CollectionResult ProductRowResult
  pages : CollectionResult PageRowResult
  global_issues : List String
  image_mapping : List (String × MappingEntry)
  summary : Option Summary
deriving DecidableEq, Repr

/-- The initial `results["products"]` block. -/
def emptyProductsColl : CollectionResult ProductRowResult := ⟨[], [], ⟨0, 0, 0⟩⟩

/-- The initial `results["pages"]` block. -/
def emptyPagesColl : CollectionResult PageRowResult := ⟨[], [], ⟨0, 0, 0⟩⟩

/-- The `results` dictionary as initialised at the top of `dry_run_import`. -/
def initialDryRunResults : DryRunResults :=
  { products := emptyProductsColl, pages := emptyPagesColl, global_issues := [],
    image_mapping := [], summary := none }

/-- The `plan.json` fields the importer consumes:
`plan["entities"]["products"]` and `plan["platform_target"]`. -/
structure Plan where
  products_enabled : Bool
  platform_target : String
deriving DecidableEq, Repr

/-- Embedding of `DataImporter.dry_run_import` (the normal, exception-free
path): a missing plan returns the initial results with a single global issue
and the summary left empty; otherwise the provided sheets are validated
(products only when enabled in the plan), duplicate slugs across both
collections become a global issue, the image mapping and summary are
computed. -/
def dry_run_import (plan : Option Plan) (d : ImageDir)
    (products_file : Option (SheetData ProductRowInput))
    (pages_file : Option (SheetData PageRowInput)) : DryRunResults :=
  match plan with
  | none =>
    { initialDryRunResults with
      global_issues := ["Plan not found - cannot validate against requirements"] }
  | some pl =>
    let products := match products_file with
      | some f => if pl.products_enabled then validate_products_excel d f
                  else emptyProductsColl
      | none => emptyProductsColl
    let pages := match pages_file with
      | some f => validate_pages_excel d f
      | none => emptyPagesColl
    let all_slugs := (products.rows.filter (fun r => r.slug ≠ "")).map (fun r => r.slug)
      ++ (pages.rows.filter (fun r => r.slug ≠ "")).map (fun r => r.slug)
    let dup := find_duplicates all_slugs
    let gissues :=
      if dup ≠ [] then ["Duplicate slugs found: " ++ joinWith ", " dup] else []
    let total_rows := products.rows.length + pages.rows.length
    let total_issues := products.issues.length + pages.issues.length + gissues.length
    { products := products, pages := pages, global_issues := gissues,
      image_mapping := generate_image_mapping products.rows pages.rows,
      summary := some
        { total_rows := total_rows, total_issues := total_issues,
          products_count := products.rows.length,
          pages_count := pages.rows.length,
          ready_to_apply := total_issues = 0 } }

/-- One row of the `issues.csv` export. -/
structure IssueRecord where
  typeCol : String
  issue : String
  severity : String
  action : String
deriving DecidableEq, Repr

/-- Content of the `issues.csv` written by `_write_issues_csv`: product, page
and global error issues, then the row-level `🟠`/`🟣` warnings over the
concatenated rows. The source labels a warning row by whether its raw data
has a `price` column, which holds exactly for product rows (invalid rows
carry no data but also no warning status). -/
def issues_csv_rows (res : DryRunResults) : List IssueRecord :=
  (res.products.issues.map (fun i => ⟨"Products", i, "Error", "Fix in products.xlsx"⟩))
  ++ (res.pages.issues.map (fun i => ⟨"Pages", i, "Error", "Fix in pages.xlsx"⟩))
  ++ (res.global_issues.map (fun i => ⟨"Global", i, "Error", "Review and fix"⟩))
  ++ ((res.products.rows.filter
        (fun r => r.status = statusWarn || r.status = statusMultiple)).map
        (fun r => ⟨"Products", "Row " ++ toString r.row ++ ": " ++ r.message,
          "Warning", "Review and confirm"⟩))
  ++ ((res.pages.rows.filter
        (fun r => r.status = statusWarn || r.status = statusMultiple)).map
        (fun r => ⟨"Pages", "Row " ++ toString r.row ++ ": " ++ r.message,
          "Warning", "Review and confirm"⟩))

/-- The part of the project tree a dry run touches: what it reads (`plan.json`
and the image directory) and what it writes (`_vsbvibe/issues.csv`). -/
structure ProjectFS where
  plan : Option Plan
  imagesDir : ImageDir
  issuesCsv : Option (List IssueRecord)
deriving DecidableEq, Repr

/-- `dry_run_import` together with its only filesystem write: when validation
completes with `total_issues > 0` the issues CSV is (re)written; the
plan-not-found early return writes nothing. -/
def dry_run_import_fs (fs : ProjectFS)
    (products_file : Option (SheetData ProductRowInput))
    (pages_file : Option (SheetData PageRowInput)) : DryRunResults × ProjectFS :=
  match fs.plan with
  | none => (dry_run_import none fs.imagesDir products_file pages_file, fs)
  | some pl =>
    let res := dry_run_import (some pl) fs.imagesDir products_file pages_file
    let total_issues :=
      res.products.issues.length + res.pages.issues.length + res.global_issues.length
    if 0 < total_issues then
      (res, { fs with issuesCsv := some (issues_csv_rows res) })
    else (res, fs)

/-! ### Content Store, row conversion, apply and undo -/

/-- Python `[tag.strip() for tag in s.split(",") if tag.strip()]`. -/
def parseTags (s : String) : List String :=
  ((splitOnChar ',' s).map strTrim).filter (fun t => t ≠ "")

/-- Python string slice `s[:n]` (by code point). -/
def strTake (s : String) (n : Nat) : String := ⟨s.toList.take n⟩

/-- The `images` sub-dictionary of a stored product. -/
structure ProductImages where
  main : Option String
  extras : List String
  alt_text : String
deriving DecidableEq, Repr

/-- A product entity as written into the Content Store by
`_convert_row_to_product`. -/
structure Product where
  id : String
  title : String
  slug : String
  price : Rat
  description : String
  sku : String
  category : String
  tags : List String
  images : ProductImages
  created_at : String
  updated_at : String
deriving DecidableEq, Repr

/-- Embedding of `DataImporter._convert_row_to_product`. Only rows with
status `✅` reach this conversion, and the validator gives every such row its
`price`, image and `data` keys, so the `Option` fallbacks here are never
read on the apply path. -/
def convert_row_to_product (row : ProductRowResult) (now : String) : Product :=
  let data := (row.data.map (fun r => r.data)).getD ⟨"", "", "", "", ""⟩
  { id := row.slug, title := row.title, slug := row.slug,
    price := row.price.getD 0,
    description := strTrim data.description,
    sku := strTrim data.sku,
    category := strTrim data.category,
    tags := parseTags data.tags,
    images := { main := row.image_main.getD none,
                extras := row.image_extras.getD [],
                alt_text := strTrim data.image_alt_text },
    created_at := now, updated_at := now }

/-- The `hero` sub-dictionary of a stored page. -/
structure PageHero where
  headline : String
  subtitle : String
  image : Option String
deriving DecidableEq, Repr

/-- The `seo` sub-dictionary of a stored page. -/
structure PageSeo where
  title : String
  description : String
deriving DecidableEq, Repr

/-- A page entity as written into the Content Store by
`_convert_row_to_page`. -/
structure Page where
  slug : String
  title : String
  hero : PageHero
  content_markdown : String
  seo : PageSeo
  created_at : String
  updated_at : String
deriving DecidableEq, Repr

/-- Embedding of `DataImporter._convert_row_to_page` (same remark about the
`Option` fallbacks as for products). -/
def convert_row_to_page (row : PageRowResult) (now : String) : Page :=
  let data := row.data.getD ⟨"", "", "", "", "", ""⟩
  { slug := row.slug, title := row.title,
    hero := { headline := strTrim data.hero_headline,
              subtitle := strTrim data.hero_subtitle,
              image := row.hero_image.getD none },
    content_markdown := strTrim data.body_markdown,
    seo := { title := row.title,
             description := strTake (strTrim data.hero_subtitle) 160 },
    created_at := now, updated_at := now }

/-- The `last_import` dictionary stamped into the Content Store by apply.
`snapshot_path` stays an `Option` because stores not written by this apply
may lack the key. -/
structure LastImport where
  timestamp : String
  products_count : Nat
  pages_count : Nat
  snapshot_path : Option String
deriving DecidableEq, Repr

/-- The Content Store document (`_vsbvibe/content_store.json`). The constant
`global` metadata block, which no operation modelled here reads or writes, is
omitted. -/
structure Store where
  products : List Product
  pages : List (String × Page)
  created_at : String
  updated_at : Option String
  last_import : Option LastImport
deriving DecidableEq, Repr

/-- The empty store `_create_content_snapshot` writes as the snapshot when
content_store.json does not exist yet: it has `created_at` but no
`updated_at` and no `last_import`. -/
def emptySnapshotStore (now : String) : Store :=
  { products := [], pages := [], created_at := now, updated_at := none,
    last_import := none }

/-- The default store `_load_content_store` builds when the file is missing
or unreadable. -/
def defaultStore (now : String) : Store :=
  { products := [], pages := [], created_at := now, updated_at := some now,
    last_import := none }

/-- One line of `_vsbvibe/logs/import.log` (append-only JSONL). -/
inductive ImportLogEntry where
  | applied (timestamp : String) (products_imported pages_imported : Nat)
      (snapshot_created : String)
  | undone (timestamp : String) (snapshot_restored : String)
deriving DecidableEq, Repr

/-- One entry of `_vsbvibe/logs/activity.json` (`log_activity` in utils). -/
structure ActivityEntry where
  timestamp : String
  action : String
  details : String
deriving DecidableEq, Repr

/-- The `_vsbvibe/diff_summary.json` document as apply updates it. -/
structure DiffSummary where
  timestamp : String
  operation : String
  files_created : List String
  files_updated : List String
  summary : String
deriving DecidableEq, Repr

/-- The files apply and undo touch. Snapshot files are keyed by their path;
the platform exports are tracked by the content written (the export path
depends only on static configuration). -/
structure SysFS where
  contentStore : Option Store
  snapshots : List (String × Store)
  imageMapFile : Option (List (String × MappingEntry))
  importLog : List ImportLogEntry
  activityLog : List ActivityEntry
  diffSummary : Option DiffSummary
  productsExport : Option (List Product)
  pagesExport : Option (List (String × Page))
deriving DecidableEq, Repr

/-- The snapshot file name `content_before_{timestamp}.json` inside the
snapshots directory. -/
def snapshotFilePath (stamp : String) : String :=
  "_vsbvibe/snapshots/content_before_" ++ stamp ++ ".json"

/-- The content a snapshot captures: the current content_store.json when it
exists, the empty store otherwise. -/
def snapshotted (now : String) (fs : SysFS) : Store :=
  match fs.contentStore with
  | some s => s
  | none => emptySnapshotStore now

/-- Embedding of `DataImporter._create_content_snapshot`: copy
content_store.json to the timestamped snapshot path when it exists, else
write an empty store there; return the path. -/
def create_content_snapshot (now stamp : String) (fs : SysFS) : String × SysFS :=
  let path := snapshotFilePath stamp
  (path, { fs with snapshots := dictInsert fs.snapshots path (snapshotted now fs) })

/-- Embedding of `DataImporter._load_content_store`: the parsed file when it
exists, the default store otherwise. -/
def load_content_store (now : String) (fs : SysFS) : Store :=
  match fs.contentStore with
  | some s => s
  | none => defaultStore now

/-- The page loop of `apply_import`: upsert the conversion of every `✅` page
row into the pages dict, in row order. -/
def applyPagesFold (now : String) :
    List PageRowResult → List (String × Page) → List (String × Page)
  | [], m => m
  | r :: rest, m =>
    applyPagesFold now rest
      (if r.status = statusValid then dictInsert m r.slug (convert_row_to_page r now)
       else m)

/-- Embedding of `DataImporter._generate_platform_exports`: for the `htmljs`
platform target, export the (truthy) products list and pages dict; no export
otherwise or when the plan is missing. -/
def generate_platform_exports (plan : Option Plan) (store : Store) (fs : SysFS) :
    SysFS :=
  match plan with
  | none => fs
  | some pl =>
    if pl.platform_target = "htmljs" then
      let fs := if store.products ≠ [] then
          { fs with productsExport := some store.products } else fs
      if store.pages ≠ [] then { fs with pagesExport := some store.pages } else fs
    else fs

/-- Embedding of `DataImporter._log_import_completion`: append the completion
line to import.log and the activity entry (keeping the last 100 entries) to
activity.json. -/
def log_import_completion (now : String) (products_count pages_count : Nat)
    (snapshot_path : String) (fs : SysFS) : SysFS :=
  let fs := { fs with importLog :=
    fs.importLog ++ [ImportLogEntry.applied now products_count pages_count snapshot_path] }
  let acts := fs.activityLog ++ [⟨now, "import_completed",
    "Imported " ++ toString products_count ++ " products, "
      ++ toString pages_count ++ " pages"⟩]
  { fs with activityLog :=
    if 100 < acts.length then acts.drop (acts.length - 100) else acts }

/-- Embedding of `DataImporter._update_diff_summary_import`. -/
def update_diff_summary_import (now : String) (plan : Option Plan)
    (products_count pages_count : Nat) (fs : SysFS) : SysFS :=
  let ds := fs.diffSummary.getD ⟨now, "data_import", [], [], ""⟩
  let files_updated := ["_vsbvibe/content_store.json"]
    ++ (if 0 < products_count then ["_vsbvibe/mapping/image_map.json"] else [])
    ++ (match plan with
        | some pl =>
          if pl.platform_target = "htmljs" then
            (if 0 < products_count then ["output/*/htmljs/data/products.json"] else [])
            ++ (if 0 < pages_count then ["output/*/htmljs/data/pages.json"] else [])
          else []
        | none => [])
  { fs with
    diffSummary := some
      { ds with
        files_updated := ds.files_updated ++ files_updated,
        timestamp := now, operation := "data_import",
        summary := "Imported " ++ toString products_count ++ " products, "
          ++ toString pages_count ++ " pages with image auto-mapping" } }

/-- The tail of `apply_import` after the content-store write: persist the
image mapping, generate platform exports, log the completion and update the
diff summary. -/
def applyPostWrite (now : String) (plan : Option Plan) (dr : DryRunResults)
    (store : Store) (products_applied pages_applied : Nat)
    (snapshot_path : String) (fs2 : SysFS) : SysFS :=
  let fs3 := { fs2 with imageMapFile := some dr.image_mapping }
  let fs4 := generate_platform_exports plan store fs3
  let fs5 := log_import_completion now products_applied pages_applied snapshot_path fs4
  update_diff_summary_import now plan products_applied pages_applied fs5

/-- The representative exception sites inside `apply_import`'s `try` block.
`storeLoadBroken` stands for `_load_content_store` having failed internally:
its `safe_component` wrapper swallows the error and yields `None`, so the
first subscript on the store raises `TypeError` — before the content-store
write. `mappingDirFailed` stands for `ensure_directory` raising `OSError`
while creating `_vsbvibe/mapping` — after the content-store write. The other
calls in the block either cannot raise, are `safe_component`-wrapped
(returning `None` instead of raising), or — like `save_json` — swallow their
own errors. -/
inductive ApplyFault where
  | storeLoadBroken
  | mappingDirFailed
deriving DecidableEq, Repr

/-- The dictionary returned by `apply_import`: the success shape carries the
applied counts and snapshot path, the `except` shape carries the error text.
The `error_id` side channel of the error reporter is not modelled. -/
structure ApplyResult where
  success : Bool
  products_applied : Option Nat
  pages_applied : Option Nat
  snapshot_path : Option String
  error : Option String
  message : String
deriving DecidableEq, Repr

/-- Embedding of `DataImporter.apply_import`. The entry line reads
`dry_run_results["summary"]["total_rows"]` before the `try`: on a result
whose summary is the empty dict it raises `KeyError`, which the
`safe_component` decorator turns into a bare `None` return — no snapshot, no
failure dictionary. Inside the `try`: snapshot, load, replace `products`
with the converted `✅` rows (only when the dry run had product rows at all),
upsert the `✅` page rows, stamp `updated_at` and `last_import`, write the
store, then write the image mapping, exports, logs and diff summary. An
injected `ApplyFault` aborts at its site with the failure dictionary of the
`except` branch. -/
def apply_import (now stamp : String) (plan : Option Plan)
    (fault : Option ApplyFault) (dr : DryRunResults) (fs : SysFS) :
    SysFS × Option ApplyResult :=
  match dr.summary with
  | none => (fs, none)
  | some _ =>
    let snap := create_content_snapshot now stamp fs
    let snapshot_path := snap.1
    let fs1 := snap.2
    match fault with
    | some .storeLoadBroken =>
      (fs1,
        some
          { success := false, products_applied := none, pages_applied := none,
            snapshot_path := none, error := some "TypeError",
            message := "Import failed: TypeError" })
    | _ =>
      let store := load_content_store now fs
      let validProductRows := dr.products.rows.filter (fun r => r.status = statusValid)
      let store := if dr.products.rows ≠ [] then
          { store with
            products := validProductRows.map (fun r => convert_row_to_product r now) }
        else store
      let products_applied := validProductRows.length
      let store := { store with pages := applyPagesFold now dr.pages.rows store.pages }
      let pages_applied := (dr.pages.rows.filter (fun r => r.status = statusValid)).length
      let store :=
        { store with
          updated_at := some now,
          last_import := some
            { timestamp := now, products_count := products_applied,
              pages_count := pages_applied, snapshot_path := some snapshot_path } }
      let fs2 := { fs1 with contentStore := some store }
      match fault with
      | some .mappingDirFailed =>
        (fs2,
          some
            { success := false, products_applied := none, pages_applied := none,
              snapshot_path := none, error := some "OSError",
              message := "Import failed: OSError" })
      | _ =>
        (applyPostWrite now plan dr store products_applied pages_applied snapshot_path fs2,
          some
            { success := true, products_applied := some products_applied,
              pages_applied := some pages_applied, snapshot_path := some snapshot_path,
              error := none,
              message := "Import successful: " ++ toString products_applied
                ++ " products, " ++ toString pages_applied ++ " pages" })

/-- The dictionary returned by `undo_last_import` (exception-free paths). -/
structure UndoResult where
  success : Bool
  message : String
  snapshot_restored : Option String
deriving DecidableEq, Repr

/-- The failure dictionary of `undo_last_import` when no snapshot is
available. -/
def noSnapshotUndoResult : UndoResult :=
  { success := false, message := "No snapshot available for undo",
    snapshot_restored := none }

/-- The `content_store.get("last_import", {}).get("snapshot_path")` read of
`undo_last_import`, through `_load_content_store`'s fallback to the default
store (which has no `last_import`) when the file is absent. -/
def snapRefOf (contentStore : Option Store) : Option String :=
  match contentStore with
  | none => none
  | some s =>
    match s.last_import with
    | none => none
    | some li => li.snapshot_path

/-- Embedding of `DataImporter.undo_last_import` (exception-free path): a
falsy (`None` or empty) snapshot path, or a snapshot file that no longer
exists, yields the no-snapshot failure without touching any file; otherwise
the snapshot is copied over content_store.json and the undo is logged. -/
def undo_last_import (now : String) (fs : SysFS) : SysFS × UndoResult :=
  match snapRefOf fs.contentStore with
  | none => (fs, noSnapshotUndoResult)
  | some p =>
    if p = "" then (fs, noSnapshotUndoResult)
    else
      match dictLookup fs.snapshots p with
      | none => (fs, noSnapshotUndoResult)
      | some snap =>
        ({ fs with
           contentStore := some snap,
           importLog := fs.importLog ++ [ImportLogEntry.undone now p] },
         { success := true, message := "Import successfully undone",
           snapshot_restored := some p })

/-- An empty filesystem, used by the concrete scenarios below. -/
def emptySysFS : SysFS :=
  { contentStore := none, snapshots := [], imageMapFile := none, importLog := [],
    activityLog := [], diffSummary := none, productsExport := none,
    pagesExport := none }

/-- A completed dry run over two empty sheets: no rows, no issues, a zero
summary with `ready_to_apply` true. -/
def minimalDryRun : DryRunResults :=
  dry_run_import (some ⟨true, "streamlit_site"⟩) ⟨false, []⟩
    (some (.table [])) (some (.table []))

/-- A completed dry run whose single product row and single page row both
resolve to an external image URL, hence both carry the warning status `🔵`
(external-url) — no row is invalid and `ready_to_apply` is true. -/
def externalRowsDryRun : DryRunResults :=
  dry_run_import (some ⟨true, "streamlit_site"⟩) ⟨false, []⟩
    (some (.table
      [⟨"Lamp", "lamp", "5", "http://cdn.example.com/x.jpg", ⟨"", "", "", "", ""⟩⟩]))
    (some (.table
      [⟨"About", "about", "http://cdn.example.com/h.jpg", "", "", ""⟩]))

/-- A completed dry run mixing one `✅` product row (exact local image) with
one `🔵` product row, and one `✅` page row with one `🔵` page row. -/
def mixedDryRun : DryRunResults :=
  dry_run_import (some ⟨true, "streamlit_site"⟩) ⟨true, ["lamp.jpg"]⟩
    (some (.table
      [⟨"Lamp", "lamp", "5", "", ⟨"", "", "", "", ""⟩⟩,
       ⟨"Mug", "mug", "7", "http://cdn.example.com/m.jpg", ⟨"", "", "", "", ""⟩⟩]))
    (some (.table
      [⟨"About", "about", "", "", "", ""⟩,
       ⟨"Contact", "contact", "http://cdn.example.com/c.jpg", "", "", ""⟩]))

example :
    (undo_last_import "t" emptySysFS).2 = noSnapshotUndoResult := by decide

/-! ### Helper lemmas about the dict simulation and the apply/undo machinery -/

theorem find_map_replace {α : Type} (l : List (String × α)) (k : String) (v : α)
    (h : l.any (fun p => p.1 = k) = true) :
    (l.map (fun p => if p.1 = k then (k, v) else p)).find?
      (fun p => decide (p.1 = k)) = some (k, v) := by
  induction l with
  | nil => simp at h
  | cons p rest ih =>
    by_cases hp : p.1 = k
    · simp only [List.map_cons, if_pos hp]
      exact List.find?_cons_of_pos _ (by simp)
    · simp only [List.any_cons, Bool.or_eq_true, decide_eq_true_eq] at h
      rcases h with h | h
      · exact absurd h hp
      · simp only [List.map_cons, if_neg hp]
        rw [List.find?_cons_of_neg _ (by simpa using hp)]
        exact ih h

theorem find_append_single {α : Type} (l : List (String × α)) (k : String) (v : α)
    (h : l.any (fun p => p.1 = k) = false) :
    (l ++ [(k, v)]).find? (fun p => decide (p.1 = k)) = some (k, v) := by
  induction l with
  | nil => exact List.find?_cons_of_pos _ (by simp)
  | cons p rest ih =>
    simp only [List.any_cons, Bool.or_eq_false_iff, decide_eq_false_iff_not] at h
    simp only [List.cons_append]
    rw [List.find?_cons_of_neg _ (by simpa using h.1)]
    exact ih (by simp [h.2])

theorem find_map_replace_ne {α : Type} (l : List (String × α)) (k k' : String)
    (v : α) (h : k' ≠ k) :
    (l.map (fun p => if p.1 = k then (k, v) else p)).find?
      (fun p => decide (p.1 = k')) = l.find? (fun p => decide (p.1 = k')) := by
  induction l with
  | nil => simp
  | cons p rest ih =>
    by_cases hp : p.1 = k
    · simp only [List.map_cons, if_pos hp]
      rw [List.find?_cons_of_neg _ (by simpa using Ne.symm h),
        List.find?_cons_of_neg _ (by rw [hp]; simpa using Ne.symm h)]
      exact ih
    · simp only [List.map_cons, if_neg hp]
      by_cases hk' : p.1 = k'
      · rw [List.find?_cons_of_pos _ (by simpa using hk'),
          List.find?_cons_of_pos _ (by simpa using hk')]
      · rw [List.find?_cons_of_neg _ (by simpa using hk'),
          List.find?_cons_of_neg _ (by simpa using hk')]
        exact ih

theorem find_append_single_ne {α : Type} (l : List (String × α)) (k k' : String)
    (v : α) (h : k' ≠ k) :
    (l ++ [(k, v)]).find? (fun p => decide (p.1 = k')) =
      l.find? (fun p => decide (p.1 = k')) := by
  induction l with
  | nil =>
    simp only [List.nil_append, List.find?_nil]
    rw [List.find?_cons_of_neg _ (by simpa using Ne.symm h), List.find?_nil]
  | cons p rest ih =>
    simp only [List.cons_append]
    by_cases hk' : p.1 = k'
    · rw [List.find?_cons_of_pos _ (by simpa using hk'),
        List.find?_cons_of_pos _ (by simpa using hk')]
    · rw [List.find?_cons_of_neg _ (by simpa using hk'),
        List.find?_cons_of_neg _ (by simpa using hk')]
      exact ih

theorem dictLookup_dictInsert_self {α : Type} (l : List (String × α)) (k : String)
    (v : α) : dictLookup (dictInsert l k v) k = some v := by
  unfold dictInsert dictLookup
  split
  case isTrue h => rw [find_map_replace l k v h]; rfl
  case isFalse h =>
    rw [find_append_single l k v (by rwa [Bool.not_eq_true] at h)]; rfl

theorem dictLookup_dictInsert_ne {α : Type} (l : List (String × α)) (k k' : String)
    (v : α) (h : k' ≠ k) : dictLookup (dictInsert l k v) k' = dictLookup l k' := by
  unfold dictInsert dictLookup
  split
  · rw [find_map_replace_ne l k k' v h]
  · rw [find_append_single_ne l k k' v h]

theorem snapshotFilePath_ne_empty (stamp : String) : snapshotFilePath stamp ≠ "" := by
  intro h
  have h2 := congrArg String.data h
  simp [snapshotFilePath, String.data_append] at h2

theorem applyPagesFold_preserves_some (now : String) (rows : List PageRowResult) :
    ∀ (m : List (String × Page)) (k : String), dictLookup m k ≠ none →
      dictLookup (applyPagesFold now rows m) k ≠ none := by
  induction rows with
  | nil => intro m k h; exact h
  | cons r rest ih =>
    intro m k h
    unfold applyPagesFold
    apply ih
    by_cases hs : r.status = statusValid
    · rw [if_pos hs]
      by_cases hk : k = r.slug
      · subst hk; rw [dictLookup_dictInsert_self]; simp
      · rw [dictLookup_dictInsert_ne _ _ _ _ hk]; exact h
    · rw [if_neg hs]; exact h

theorem applyPagesFold_valid_mem (now : String) (rows : List PageRowResult)
    (r : PageRowResult) (hr : r ∈ rows) (hv : r.status = statusValid) :
    ∀ m : List (String × Page),
      dictLookup (applyPagesFold now rows m) r.slug ≠ none := by
  induction rows with
  | nil => cases hr
  | cons r0 rest ih =>
    intro m
    unfold applyPagesFold
    rcases List.mem_cons.mp hr with rfl | hmem
    · apply applyPagesFold_preserves_some
      rw [if_pos hv, dictLookup_dictInsert_self]
      simp
    · exact ih hmem _

theorem applyPagesFold_absent (now : String) (rows : List PageRowResult) (k : String)
    (h : ∀ r, r ∈ rows → r.status = statusValid → r.slug ≠ k) :
    ∀ m : List (String × Page), dictLookup m k = none →
      dictLookup (applyPagesFold now rows m) k = none := by
  induction rows with
  | nil => intro m hm; exact hm
  | cons r0 rest ih =>
    intro m hm
    unfold applyPagesFold
    apply ih (fun r hr => h r (List.mem_cons_of_mem _ hr))
    by_cases hs : r0.status = statusValid
    · have hne : r0.slug ≠ k := h r0 (List.mem_cons_self _ _) hs
      rw [if_pos hs, dictLookup_dictInsert_ne _ _ _ _ (Ne.symm hne)]
      exact hm
    · rw [if_neg hs]; exact hm

theorem selectMain_fuzzy_candidates (cands extras : List String)
    (h : (selectMain cands extras).confidence = "fuzzy") :
    1 < (selectMain cands extras).main_candidates.length := by
  cases cands with
  | nil =>
    simp only [selectMain] at h
    exact absurd h (((by decide) : ¬ ("none" : String) = "fuzzy"))
  | cons c cs =>
    rcases hf : (c :: cs).filter (fun img => strContainsSub img "_main") with _ | ⟨v, rest⟩
    · simp only [selectMain, hf] at h ⊢
      cases hcs : cs with
      | nil =>
        rw [hcs] at h
        exact absurd h (((by decide) : ¬ ("exact" : String) = "fuzzy"))
      | cons c' cs' => simp
    · simp only [selectMain, hf] at h
      exact absurd h (((by decide) : ¬ ("exact" : String) = "fuzzy"))

theorem generate_platform_exports_snapshots (plan : Option Plan) (store : Store)
    (fs : SysFS) : (generate_platform_exports plan store fs).snapshots = fs.snapshots := by
  unfold generate_platform_exports
  rcases plan with _ | pl
  · rfl
  · dsimp only
    repeat' split
    all_goals rfl

theorem generate_platform_exports_contentStore (plan : Option Plan) (store : Store)
    (fs : SysFS) :
    (generate_platform_exports plan store fs).contentStore = fs.contentStore := by
  unfold generate_platform_exports
  rcases plan with _ | pl
  · rfl
  · dsimp only
    repeat' split
    all_goals rfl

theorem applyPostWrite_snapshots (now : String) (plan : Option Plan)
    (dr : DryRunResults) (store : Store) (pa ga : Nat) (sp : String) (fs2 : SysFS) :
    (applyPostWrite now plan dr store pa ga sp fs2).snapshots = fs2.snapshots := by
  unfold applyPostWrite update_diff_summary_import log_import_completion
  dsimp only
  rw [generate_platform_exports_snapshots]

theorem applyPostWrite_contentStore (now : String) (plan : Option Plan)
    (dr : DryRunResults) (store : Store) (pa ga : Nat) (sp : String) (fs2 : SysFS) :
    (applyPostWrite now plan dr store pa ga sp fs2).contentStore = fs2.contentStore := by
  unfold applyPostWrite update_diff_summary_import log_import_completion
  dsimp only
  rw [generate_platform_exports_contentStore]

/-- Shape of a normal (fault-free) apply on a dry-run result that carries a
summary: exactly one snapshot written, and the new store's fields. -/
theorem apply_normal_fields (now stamp : String) (plan : Option Plan)
    (dr : DryRunResults) (fs : SysFS) (σ : Summary) (hσ : dr.summary = some σ) :
    (apply_import now stamp plan none dr fs).1.snapshots
        = dictInsert fs.snapshots (snapshotFilePath stamp) (snapshotted now fs) ∧
    ((apply_import now stamp plan none dr fs).1.contentStore.map Store.products
        = some (if dr.products.rows ≠ [] then
            (dr.products.rows.filter (fun r => r.status = statusValid)).map
              (fun r => convert_row_to_product r now)
          else (load_content_store now fs).products)) ∧
    ((apply_import now stamp plan none dr fs).1.contentStore.map Store.pages
        = some (applyPagesFold now dr.pages.rows (load_content_store now fs).pages)) ∧
    ((apply_import now stamp plan none dr fs).1.contentStore.map Store.last_import
        = some (some
          { timestamp := now,
            products_count :=
              (dr.products.rows.filter (fun r => r.status = statusValid)).length,
            pages_count :=
              (dr.pages.rows.filter (fun r => r.status = statusValid)).length,
            snapshot_path := some (snapshotFilePath stamp) })) ∧
    ((apply_import now stamp plan none dr fs).2.map (fun x => x.success)
        = some true) := by
  unfold apply_import create_content_snapshot
  rw [hσ]
  dsimp only
  refine ⟨?_, ?_, ?_, ?_, ?_⟩
  · rw [applyPostWrite_snapshots]
  · rw [applyPostWrite_contentStore]
    dsimp only
    by_cases hc : dr.products.rows ≠ [] <;> simp [hc]
  · rw [applyPostWrite_contentStore]
    dsimp only
    by_cases hc : dr.products.rows ≠ [] <;> simp [hc]
  · rw [applyPostWrite_contentStore]
    rfl
  · rfl

theorem undo_restores (now : String) (fs : SysFS) (p : String) (snap : Store)
    (hp : snapRefOf fs.contentStore = some p) (hne : p ≠ "")
    (hl : dictLookup fs.snapshots p = some snap) :
    undo_last_import now fs =
      ({ fs with
         contentStore := some snap,
         importLog := fs.importLog ++ [ImportLogEntry.undone now p] },
       { success := true, message := "Import successfully undone",
         snapshot_restored := some p }) := by
  unfold undo_last_import
  rw [hp]
  dsimp only
  rw [if_neg hne, hl]

theorem undo_fails_general (now : String) (fs : SysFS)
    (h : snapRefOf fs.contentStore = none ∨
      ∃ p, snapRefOf fs.contentStore = some p ∧
        (p = "" ∨ dictLookup fs.snapshots p = none)) :
    undo_last_import now fs = (fs, noSnapshotUndoResult) := by
  unfold undo_last_import
  rcases h with h | ⟨p, hp, hcase⟩
  · rw [h]
  · rw [hp]
    rcases hcase with rfl | hl
    · simp
    · by_cases hpe : p = ""
      · simp [hpe]
      · simp [hpe, hl]

theorem dry_run_import_fs_fst (fs : ProjectFS)
    (pf : Option (SheetData ProductRowInput))
    (gf : Option (SheetData PageRowInput)) :
    (dry_run_import_fs fs pf gf).1 = dry_run_import fs.plan fs.imagesDir pf gf := by
  unfold dry_run_import_fs
  cases h : fs.plan with
  | none => rfl
  | some pl =>
    dsimp only
    split <;> rfl

theorem dry_run_import_fs_reads (fs : ProjectFS)
    (pf : Option (SheetData ProductRowInput))
    (gf : Option (SheetData PageRowInput)) :
    (dry_run_import_fs fs pf gf).2.plan = fs.plan ∧
    (dry_run_import_fs fs pf gf).2.imagesDir = fs.imagesDir := by
  unfold dry_run_import_fs
  cases h : fs.plan with
  | none => exact ⟨h, rfl⟩
  | some pl =>
    dsimp only
    split
    · exact ⟨rfl, rfl⟩
    · exact ⟨h, rfl⟩

theorem confidence_fuzzy_candidates (d : ImageDir) (slug sp : String)
    (h : (map_images_for_slug d slug sp).confidence = "fuzzy") :
    1 < (map_images_for_slug d slug sp).main_candidates.length := by
  revert h
  unfold map_images_for_slug
  split
  · intro h; exact absurd h (((by decide) : ¬ ("external" : String) = "fuzzy"))
  · split
    · intro h; exact absurd h (((by decide) : ¬ ("manual" : String) = "fuzzy"))
    · split
      · intro h; exact absurd h (((by decide) : ¬ ("none" : String) = "fuzzy"))
      · intro h
        exact selectMain_fuzzy_candidates _ _ h

/-! ### Claims -/

/-- C10: with `plan.json` absent, `dry_run_import` validates nothing and
returns immediately: a single plan-not-found global issue, empty products and
pages result blocks, no image mapping, and the summary left as the initial
empty dictionary — which therefore carries no `ready_to_apply` field. -/
theorem c10_no_plan_dry_run (d : ImageDir)
    (pf : Option (SheetData ProductRowInput))
    (gf : Option (SheetData PageRowInput)) :
    dry_run_import none d pf gf =
      { products := emptyProductsColl, pages := emptyPagesColl,
        global_issues := ["Plan not found - cannot validate against requirements"],
        image_mapping := [], summary := none } := rfl

/-- C8: the row `title "Lamp", slug "desk-lamp", price "$49.99"` with the
image directory holding exactly `desk-lamp_main.jpg`, `desk-lamp_1.jpg` and
`desk-lamp_2.jpg` validates to status valid with main image
`desk-lamp_main.jpg`, extra images `["desk-lamp_1.jpg", "desk-lamp_2.jpg"]`
in that order, and price `49.99`. -/
theorem c8_desk_lamp_scenario :
    validate_product_row
      ⟨true, ["desk-lamp_main.jpg", "desk-lamp_1.jpg", "desk-lamp_2.jpg"]⟩
      ⟨"Lamp", "desk-lamp", "$49.99", "", ⟨"", "", "", "", ""⟩⟩ 0 =
      { status := statusValid, message := "All fields valid", slug := "desk-lamp",
        title := "Lamp", row := 2, price := some (4999 / 100 : Rat),
        image_main := some (some "desk-lamp_main.jpg"),
        image_extras := some ["desk-lamp_1.jpg", "desk-lamp_2.jpg"],
        image_candidates := some ["desk-lamp_main.jpg"],
        data := some ⟨"Lamp", "desk-lamp", "$49.99", "", ⟨"", "", "", "", ""⟩⟩ } := by
  have h : (4999 / 100 : Rat) = mkRat 4999 100 := by
    rw [Rat.mkRat_eq_div]; norm_num
  rw [h]
  decide

/-- C6: a specified image beginning with the URI-scheme prefix the code
recognizes (`http`, covering http and https URLs) is returned verbatim as the
main image with confidence `external`, independently of the image directory —
in particular even when a local `slug.jpg` exists (see the witness). -/
theorem c6_external_url_precedence (d : ImageDir) (slug specified : String)
    (hne : specified ≠ "") (hhttp : strStartsWith specified "http" = true) :
    map_images_for_slug d slug specified =
      { main_image := some specified, extra_images := [],
        main_candidates := [specified], confidence := "external" } := by
  unfold map_images_for_slug
  rw [if_pos (by simp [hne, hhttp])]

/-- Witness for C6: the spec scenario, external URL beside a matching local
`slug.jpg`. -/
theorem c6_external_url_precedence_witness :
    (("https://cdn.example.com/x.jpg" : String) ≠ "") ∧
    (strStartsWith "https://cdn.example.com/x.jpg" "http" = true) ∧
    map_images_for_slug ⟨true, ["slug.jpg"]⟩ "slug" "https://cdn.example.com/x.jpg" =
      { main_image := some "https://cdn.example.com/x.jpg", extra_images := [],
        main_candidates := ["https://cdn.example.com/x.jpg"],
        confidence := "external" } :=
  ⟨by decide, by decide,
    c6_external_url_precedence ⟨true, ["slug.jpg"]⟩ "slug"
      "https://cdn.example.com/x.jpg" (by decide) (by decide)⟩

/-- C4: undo on a store whose `last_import.snapshot_path` is absent (no store
file, no `last_import`, or no recorded path), empty, or naming a snapshot
file that no longer exists, returns the no-snapshot failure dictionary
(success false) and touches no file. The embedding is a total function,
matching the source where this path returns a result dictionary and the
decorator boundary converts any residual exception instead of re-raising. -/
theorem c4_undo_no_snapshot_fails (now : String) (fs : SysFS)
    (h : snapRefOf fs.contentStore = none ∨
      ∃ p, snapRefOf fs.contentStore = some p ∧
        (p = "" ∨ dictLookup fs.snapshots p = none)) :
    undo_last_import now fs = (fs, noSnapshotUndoResult) := by
  unfold undo_last_import
  rcases h with h | ⟨p, hp, hcase⟩
  · rw [h]
  · rw [hp]
    rcases hcase with rfl | hl
    · simp
    · by_cases hpe : p = ""
      · simp [hpe]
      · simp [hpe, hl]

/-- Witness for C4 at a concrete store with no content-store file at all. -/
theorem c4_undo_no_snapshot_fails_witness :
    (snapRefOf emptySysFS.contentStore = none ∨
      ∃ p, snapRefOf emptySysFS.contentStore = some p ∧
        (p = "" ∨ dictLookup emptySysFS.snapshots p = none)) ∧
    undo_last_import "t" emptySysFS = (emptySysFS, noSnapshotUndoResult) :=
  ⟨Or.inl rfl, c4_undo_no_snapshot_fails "t" emptySysFS (Or.inl rfl)⟩

/-- C7: running the dry run twice on identical spreadsheet inputs with no
filesystem change in between yields identical summaries: the only write a dry
run performs (the issues CSV) is not among the inputs validation reads (the
plan and the image directory). -/
theorem c7_dry_run_idempotent (fs : ProjectFS)
    (pf : Option (SheetData ProductRowInput))
    (gf : Option (SheetData PageRowInput)) :
    ((dry_run_import_fs ((dry_run_import_fs fs pf gf).2) pf gf).1).summary =
      ((dry_run_import_fs fs pf gf).1).summary := by
  have h1 := dry_run_import_fs_fst ((dry_run_import_fs fs pf gf).2) pf gf
  have h2 := dry_run_import_fs_fst fs pf gf
  have h3 := dry_run_import_fs_reads fs pf gf
  rw [h1, h2, h3.1, h3.2]

/-- C2 counterexample: an exception raised after the content-store write (the
mapping-directory creation failing) returns a failure result, yet the Content
Store file has been modified — so an exception "at any point" does not leave
the store unmodified. -/
theorem c2_exception_after_write_cex :
    ((apply_import "t" "s" none (some .mappingDirFailed) minimalDryRun
        emptySysFS).2.map (fun r => r.success) = some false) ∧
    (apply_import "t" "s" none (some .mappingDirFailed) minimalDryRun
        emptySysFS).1.contentStore ≠ emptySysFS.contentStore := by
  decide

/-- C2 amended: an exception raised before the content-store write (modelled
by the store load failing) leaves content_store.json unmodified and returns a
failure result; an exception after the write also returns a failure result
but leaves the newly written store in place (counterexample), so atomicity of
the store file holds only for the pre-write phase. -/
theorem c2_abort_before_write_leaves_store (now stamp : String)
    (plan : Option Plan) (dr : DryRunResults) (fs : SysFS) (σ : Summary)
    (hσ : dr.summary = some σ) :
    ((apply_import now stamp plan (some .storeLoadBroken) dr fs).1.contentStore
        = fs.contentStore) ∧
    ((apply_import now stamp plan (some .storeLoadBroken) dr fs).2.map
        (fun r => r.success) = some false) := by
  unfold apply_import create_content_snapshot
  rw [hσ]
  exact ⟨rfl, rfl⟩

/-- Witness for C2's amended theorem on a concrete empty filesystem. -/
theorem c2_abort_before_write_leaves_store_witness :
    (minimalDryRun.summary = some ⟨0, 0, 0, 0, true⟩) ∧
    (((apply_import "t" "s" none (some .storeLoadBroken) minimalDryRun
          emptySysFS).1.contentStore = emptySysFS.contentStore) ∧
     ((apply_import "t" "s" none (some .storeLoadBroken) minimalDryRun
          emptySysFS).2.map (fun r => r.success) = some false)) :=
  ⟨by decide,
    c2_abort_before_write_leaves_store "t" "s" none minimalDryRun emptySysFS
      ⟨0, 0, 0, 0, true⟩ (by decide)⟩

/-- C5 counterexample: `apply_import` called on a dry-run result whose summary
is the empty dictionary (the plan-not-found dry-run result) raises `KeyError`
at its entry line, before the `try` — the component wrapper returns bare
`None` and no snapshot is created, so not every call creates a snapshot. -/
theorem c5_apply_without_summary_no_snapshot_cex :
    apply_import "t" "s" none none (dry_run_import none ⟨false, []⟩ none none)
      emptySysFS = (emptySysFS, none) := by
  decide

/-- C5 amended: every `apply_import` call whose dry-run result carries summary
counts (as every completed validation does) creates exactly one snapshot —
also when the store file does not yet exist and when there are zero
applicable rows — and records its path together with the applied counts in
`last_import`; a dry-run result without summary counts aborts at entry with
no snapshot (counterexample). -/
theorem c5_apply_creates_one_snapshot (now stamp : String) (plan : Option Plan)
    (dr : DryRunResults) (fs : SysFS) (σ : Summary) (hσ : dr.summary = some σ) :
    ((apply_import now stamp plan none dr fs).1.snapshots
        = dictInsert fs.snapshots (snapshotFilePath stamp) (snapshotted now fs)) ∧
    ((apply_import now stamp plan none dr fs).1.contentStore.map Store.last_import
        = some (some
          { timestamp := now,
            products_count :=
              (dr.products.rows.filter (fun r => r.status = statusValid)).length,
            pages_count :=
              (dr.pages.rows.filter (fun r => r.status = statusValid)).length,
            snapshot_path := some (snapshotFilePath stamp) })) := by
  obtain ⟨h1, -, -, h4, -⟩ := apply_normal_fields now stamp plan dr fs σ hσ
  exact ⟨h1, h4⟩

/-- Witness for C5's amended theorem: apply with zero applicable rows on a
filesystem with no content-store file. -/
theorem c5_apply_creates_one_snapshot_witness :
    (minimalDryRun.summary = some ⟨0, 0, 0, 0, true⟩) ∧
    (((apply_import "t" "s" none none minimalDryRun emptySysFS).1.snapshots
        = dictInsert emptySysFS.snapshots (snapshotFilePath "s")
            (snapshotted "t" emptySysFS)) ∧
     ((apply_import "t" "s" none none minimalDryRun
          emptySysFS).1.contentStore.map Store.last_import
        = some (some
          { timestamp := "t",
            products_count :=
              (minimalDryRun.products.rows.filter
                (fun r => r.status = statusValid)).length,
            pages_count :=
              (minimalDryRun.pages.rows.filter
                (fun r => r.status = statusValid)).length,
            snapshot_path := some (snapshotFilePath "s") }))) :=
  ⟨by decide,
    c5_apply_creates_one_snapshot "t" "s" none minimalDryRun emptySysFS
      ⟨0, 0, 0, 0, true⟩ (by decide)⟩

/-- C1 counterexample: a dry run whose only product row and only page row are
both non-invalid (status `🔵`, external-url; `ready_to_apply` true), yet
apply writes neither of them: the products collection is replaced by the
empty list, the pages dict stays empty, and both applied counts are zero.
Rows with a warning status ARE excluded from apply. -/
theorem c1_apply_drops_warning_rows_cex :
    (externalRowsDryRun.products.rows.map (fun r => r.status)
      = [statusExternalUrl]) ∧
    (externalRowsDryRun.pages.rows.map (fun r => r.status)
      = [statusExternalUrl]) ∧
    (externalRowsDryRun.summary.map (fun s => s.ready_to_apply) = some true) ∧
    ((apply_import "t" "s" (some ⟨true, "streamlit_site"⟩) none
        externalRowsDryRun emptySysFS).1.contentStore.map
        (fun st => (st.products, st.pages)) = some ([], [])) ∧
    ((apply_import "t" "s" (some ⟨true, "streamlit_site"⟩) none
        externalRowsDryRun emptySysFS).2.map
        (fun r => (r.success, r.products_applied, r.pages_applied))
      = some (true, some 0, some 0)) := by
  decide

/-- C1 amended: apply writes into `products` exactly the conversions of the
dry-run product rows whose status is `✅` (valid) — every other status,
including the warning statuses external-url, fuzzy-match, missing-image and
multiple-candidates, is excluded — and likewise upserts into `pages` exactly
the `✅` page rows. -/
theorem c1_apply_writes_only_valid_rows (now stamp : String) (plan : Option Plan)
    (dr : DryRunResults) (fs : SysFS) (σ : Summary) (hσ : dr.summary = some σ)
    (hrows : dr.products.rows ≠ []) :
    ∃ st, (apply_import now stamp plan none dr fs).1.contentStore = some st ∧
      (∀ q : Product, q ∈ st.products ↔
        ∃ r, r ∈ dr.products.rows ∧ r.status = statusValid ∧
          q = convert_row_to_product r now) ∧
      (∀ r : PageRowResult, r ∈ dr.pages.rows → r.status = statusValid →
        dictLookup st.pages r.slug ≠ none) ∧
      (∀ r : PageRowResult, r ∈ dr.pages.rows → r.status ≠ statusValid →
        dictLookup (load_content_store now fs).pages r.slug = none →
        (∀ r', r' ∈ dr.pages.rows → r'.status = statusValid → r'.slug ≠ r.slug) →
        dictLookup st.pages r.slug = none) := by
  obtain ⟨-, hprod, hpages, -, -⟩ := apply_normal_fields now stamp plan dr fs σ hσ
  rcases hcs : (apply_import now stamp plan none dr fs).1.contentStore with _ | st
  · rw [hcs] at hprod
    cases hprod
  · rw [hcs] at hprod hpages
    simp only [Option.map_some'] at hprod hpages
    have hP := Option.some.inj hprod
    have hG := Option.some.inj hpages
    refine ⟨st, rfl, ?_, ?_, ?_⟩
    · intro q
      rw [hP, if_pos hrows]
      simp only [List.mem_map, List.mem_filter, decide_eq_true_eq]
      constructor
      · rintro ⟨r, ⟨hm, hv⟩, rfl⟩
        exact ⟨r, hm, hv, rfl⟩
      · rintro ⟨r, hm, hv, rfl⟩
        exact ⟨r, ⟨hm, hv⟩, rfl⟩
    · intro r hm hv
      rw [hG]
      exact applyPagesFold_valid_mem now _ r hm hv _
    · intro r hm hnv habs hall
      rw [hG]
      exact applyPagesFold_absent now _ r.slug
        (fun r' h' hv' => hall r' h' hv') _ habs

/-- Witness for C1's amended theorem on the mixed dry run (one valid and one
external product row, one valid and one external page row). -/
theorem c1_apply_writes_only_valid_rows_witness :
    (mixedDryRun.summary = some ⟨4, 0, 2, 2, true⟩) ∧
    (mixedDryRun.products.rows ≠ []) ∧
    (∃ st, (apply_import "t" "s" none none mixedDryRun
        emptySysFS).1.contentStore = some st ∧
      (∀ q : Product, q ∈ st.products ↔
        ∃ r, r ∈ mixedDryRun.products.rows ∧ r.status = statusValid ∧
          q = convert_row_to_product r "t") ∧
      (∀ r : PageRowResult, r ∈ mixedDryRun.pages.rows →
        r.status = statusValid → dictLookup st.pages r.slug ≠ none) ∧
      (∀ r : PageRowResult, r ∈ mixedDryRun.pages.rows →
        r.status ≠ statusValid →
        dictLookup (load_content_store "t" emptySysFS).pages r.slug = none →
        (∀ r', r' ∈ mixedDryRun.pages.rows → r'.status = statusValid →
          r'.slug ≠ r.slug) →
        dictLookup st.pages r.slug = none)) :=
  ⟨by decide, by decide,
    c1_apply_writes_only_valid_rows "t" "s" none mixedDryRun emptySysFS
      ⟨4, 0, 2, 2, true⟩ (by decide) (by decide)⟩

/-- C3 counterexample: two applies followed by two undos. The second undo —
with no intervening apply — succeeds, and it restores the snapshot of the
FIRST apply, which is older than the snapshot recorded by the immediately
preceding (second) apply: undo chains through the restored `last_import`. -/
theorem c3_undo_chains_cex :
    (((apply_import "t1" "s1" none none minimalDryRun emptySysFS).2.map
        (fun r => r.success)) = some true) ∧
    (((apply_import "t2" "s2" none none minimalDryRun
        (apply_import "t1" "s1" none none minimalDryRun emptySysFS).1).2.map
        (fun r => r.success)) = some true) ∧
    ((undo_last_import "t3"
        (apply_import "t2" "s2" none none minimalDryRun
          (apply_import "t1" "s1" none none minimalDryRun emptySysFS).1).1).2
      = { success := true, message := "Import successfully undone",
          snapshot_restored := some (snapshotFilePath "s2") }) ∧
    ((undo_last_import "t4"
        (undo_last_import "t3"
          (apply_import "t2" "s2" none none minimalDryRun
            (apply_import "t1" "s1" none none minimalDryRun
              emptySysFS).1).1).1).2
      = { success := true, message := "Import successfully undone",
          snapshot_restored := some (snapshotFilePath "s1") }) ∧
    (snapshotFilePath "s1" ≠ snapshotFilePath "s2") := by
  decide

/-- C3 amended: after one apply on a store that records no snapshot path
(fresh store, or one never written by apply), one undo succeeds and a second
undo with no intervening apply fails with the no-snapshot result, leaving the
store as the first undo left it; but when the pre-apply store itself recorded
an existing snapshot, the second undo instead succeeds and restores that
older snapshot (counterexample) — undo chains through restored metadata
rather than refusing. -/
theorem c3_second_undo_fails_without_prior_snapshot (t1 s1 t2 t3 : String)
    (plan : Option Plan) (dr : DryRunResults) (fs : SysFS) (σ : Summary)
    (hσ : dr.summary = some σ) (h : snapRefOf fs.contentStore = none) :
    ((undo_last_import t2 (apply_import t1 s1 plan none dr fs).1).2.success
        = true) ∧
    (undo_last_import t3
        (undo_last_import t2 (apply_import t1 s1 plan none dr fs).1).1
      = ((undo_last_import t2 (apply_import t1 s1 plan none dr fs).1).1,
         noSnapshotUndoResult)) := by
  obtain ⟨hsnaps, -, -, hli, -⟩ := apply_normal_fields t1 s1 plan dr fs σ hσ
  rcases hcs : (apply_import t1 s1 plan none dr fs).1.contentStore with _ | st
  · rw [hcs] at hli
    cases hli
  · rw [hcs] at hli
    simp only [Option.map_some'] at hli
    have hli' := Option.some.inj hli
    have hp : snapRefOf (apply_import t1 s1 plan none dr fs).1.contentStore
        = some (snapshotFilePath s1) := by
      rw [hcs]
      unfold snapRefOf
      dsimp only
      rw [hli']
    have hlook : dictLookup (apply_import t1 s1 plan none dr fs).1.snapshots
        (snapshotFilePath s1) = some (snapshotted t1 fs) := by
      rw [hsnaps]
      exact dictLookup_dictInsert_self _ _ _
    have hu1 := undo_restores t2 _ _ _ hp (snapshotFilePath_ne_empty s1) hlook
    constructor
    · rw [hu1]
    · rw [hu1]
      dsimp only
      apply undo_fails_general
      left
      show snapRefOf (some (snapshotted t1 fs)) = none
      unfold snapshotted
      rcases hc : fs.contentStore with _ | s
      · rfl
      · rw [hc] at h
        exact h

/-- Witness for C3's amended theorem: one apply on an empty filesystem, then
two undos. -/
theorem c3_second_undo_fails_without_prior_snapshot_witness :
    (minimalDryRun.summary = some ⟨0, 0, 0, 0, true⟩) ∧
    (snapRefOf emptySysFS.contentStore = none) ∧
    (((undo_last_import "t2"
        (apply_import "t1" "s1" none none minimalDryRun
          emptySysFS).1).2.success = true) ∧
     (undo_last_import "t3"
        (undo_last_import "t2"
          (apply_import "t1" "s1" none none minimalDryRun emptySysFS).1).1
      = ((undo_last_import "t2"
          (apply_import "t1" "s1" none none minimalDryRun emptySysFS).1).1,
         noSnapshotUndoResult))) :=
  ⟨by decide, rfl,
    c3_second_undo_fails_without_prior_snapshot "t1" "s1" "t2" "t3" none
      minimalDryRun emptySysFS ⟨0, 0, 0, 0, true⟩ (by decide) rfl⟩

/-- C9 counterexample: a structurally valid product row whose image
resolution has confidence `fuzzy` gets status `🟣` (multiple-candidates), not
`🟠` (fuzzy-match) — fuzzy confidence always comes with more than one
candidate, and the multiple-candidates check overrides the status last — and
the page validator maps the same fuzzy resolution to `✅` (valid): the
claimed uniform fuzzy-to-fuzzy-match mapping holds for neither row kind. -/
theorem c9_fuzzy_status_cex :
    ((map_images_for_slug ⟨true, ["lamp-big.jpg", "lamp-small.jpg"]⟩ "lamp" "").confidence
      = "fuzzy") ∧
    ((validate_product_row ⟨true, ["lamp-big.jpg", "lamp-small.jpg"]⟩
        ⟨"Lamp", "lamp", "5", "", ⟨"", "", "", "", ""⟩⟩ 0).status = statusMultiple) ∧
    ((validate_product_row ⟨true, ["lamp-big.jpg", "lamp-small.jpg"]⟩
        ⟨"Lamp", "lamp", "5", "", ⟨"", "", "", "", ""⟩⟩ 0).status ≠ statusWarn) ∧
    ((validate_page_row ⟨true, ["lamp-big.jpg", "lamp-small.jpg"]⟩
        ⟨"Lamp", "lamp", "", "", "", ""⟩ 0).status = statusValid) := by
  decide

/-- C9 amended: for every structurally valid product row whose image
resolution yields confidence `fuzzy`, validation returns status `🟣`
(multiple-candidates — the fuzzy branch is always overridden, since fuzzy
confidence entails at least two candidates); page-row validation never
produces a fuzzy-match status at all. -/
theorem c9_fuzzy_confidence_statuses (d : ImageDir) (r : ProductRowInput)
    (i : Nat) (p : Rat)
    (ht : ¬ strTrim r.title = "") (hs : ¬ strTrim r.slug = "")
    (hu : is_url_safe (strTrim r.slug) = true)
    (hp : parsePyFloat (stripPriceSymbols r.price) = some p) (hneg : ¬ p < 0)
    (hc : (map_images_for_slug d (strTrim r.slug) (strTrim r.image_main)).confidence
      = "fuzzy") :
    ((validate_product_row d r i).status = statusMultiple) ∧
    (∀ (g : PageRowInput) (j : Nat),
      (validate_page_row d g j).status ≠ statusWarn) := by
  constructor
  · have h2 := confidence_fuzzy_candidates d (strTrim r.slug) (strTrim r.image_main) hc
    unfold validate_product_row
    dsimp only
    rw [if_neg ht, if_neg hs, if_neg (by simp [hu]), hp]
    dsimp only
    rw [if_neg hneg]
    dsimp only
    rw [if_pos h2]
  · intro g j
    unfold validate_page_row invalidPageRow
    dsimp only
    repeat' split
    all_goals
      first
      | exact ((by decide) : ¬ ((statusInvalid : String) = statusWarn))
      | exact ((by decide) : ¬ ((statusExternalUrl : String) = statusWarn))
      | exact ((by decide) : ¬ ((statusValid : String) = statusWarn))

/-- Witness for C9's amended theorem at the counterexample's inputs. -/
theorem c9_fuzzy_confidence_statuses_witness :
    (¬ strTrim "Lamp" = "") ∧ (¬ strTrim "lamp" = "") ∧
    (is_url_safe (strTrim "lamp") = true) ∧
    (parsePyFloat (stripPriceSymbols "5") = some (mkRat 5 1)) ∧
    (¬ mkRat 5 1 < 0) ∧
    ((map_images_for_slug ⟨true, ["lamp-big.jpg", "lamp-small.jpg"]⟩
        (strTrim "lamp") (strTrim "")).confidence = "fuzzy") ∧
    (((validate_product_row ⟨true, ["lamp-big.jpg", "lamp-small.jpg"]⟩
        ⟨"Lamp", "lamp", "5", "", ⟨"", "", "", "", ""⟩⟩ 0).status = statusMultiple) ∧
     (∀ (g : PageRowInput) (j : Nat),
       (validate_page_row ⟨true, ["lamp-big.jpg", "lamp-small.jpg"]⟩ g j).status
         ≠ statusWarn)) :=
  ⟨by decide, by decide, by decide, by decide, by decide, by decide,
    c9_fuzzy_confidence_statuses ⟨true, ["lamp-big.jpg", "lamp-small.jpg"]⟩
      ⟨"Lamp", "lamp", "5", "", ⟨"", "", "", "", ""⟩⟩ 0 (mkRat 5 1)
      (by decide) (by decide) (by decide) (by decide) (by decide) (by decide)⟩

end Vsbvibe
